import Mathlib

/-!
Verification development for the SMAD Picklebot command pipeline
(`webhook/picklebot/main.py`): command normalization (dry-run flag
extraction), intent classification (LLM-backed primary path with a
deterministic fallback), dispatch/confirmation gating, balance handlers,
and the HTTP webhook entry point.

Modelling conventions:
* Python strings are Lean `String`s (a list of characters); all string
  operations are re-implemented structurally over `String.data` so that
  every definition evaluates by kernel reduction.  `str.lower()` is
  modelled as ASCII lowercasing (all commands in scope are ASCII).
* Money balances are modelled as exact integer cents; Python's
  `f"{x:.2f}"` float formatting is `fmtMoney` (exact for the cent-valued
  balances the handlers deal with).
* Network I/O (the Claude classification call, the GREEN-API send, the
  spreadsheet read) is modelled by environment parameters describing the
  collaborator's observable outcome.
-/

/-- Whitespace class used by Python's `str.strip()` and `\s` in `re`
(ASCII part): space, tab, newline, carriage return, vertical tab, form feed. -/
def isPySpace (c : Char) : Bool :=
  c = ' ' || c = '\t' || c = '\n' || c = '\r' || c = '\x0b' || c = '\x0c'

/-- Python `str.strip()`: drop leading and trailing whitespace. -/
def pyStrip (s : String) : String :=
  ⟨((s.data.dropWhile isPySpace).reverse.dropWhile isPySpace).reverse⟩

/-- Python `str.lower()` (ASCII). -/
def pyLower (s : String) : String :=
  ⟨s.data.map Char.toLower⟩

/-- `needle` occurs as a contiguous substring of the character list
(Python's `needle in hay`). -/
def listContainsSub (needle : List Char) : List Char → Bool
  | [] => needle.isEmpty
  | c :: rest => needle.isPrefixOf (c :: rest) || listContainsSub needle rest

/-- Python's `needle in hay` on strings. -/
def strContains (hay needle : String) : Bool :=
  listContainsSub needle.data hay.data

/-- Python's `hay.startswith(pre)`. -/
def strStarts (hay pre : String) : Bool :=
  pre.data.isPrefixOf hay.data

/-- Fuel-driven worker for `removeAllSub`: removes every (left-to-right,
non-overlapping) occurrence of `needle`.  The fuel is the length of the
input list, which always suffices since each step consumes at least one
character; it only serves to make the recursion structural. -/
def removeAllSubGo (needle : List Char) : Nat → List Char → List Char
  | _, [] => []
  | 0, rest => rest
  | fuel + 1, c :: rest =>
    if needle.isPrefixOf (c :: rest) then
      removeAllSubGo needle fuel (rest.drop (needle.length - 1))
    else
      c :: removeAllSubGo needle fuel rest

/-- Python `s.replace(needle, "")`: remove all occurrences of `needle`. -/
def removeAllSub (s needle : String) : String :=
  ⟨removeAllSubGo needle.data s.data.length s.data⟩

/-- Fuel-driven worker for `removeAllCI`: like `removeAllSubGo` but the
match is case-insensitive (the needle is given in lowercase), modelling
`re.sub(re.escape(flag), '', s, flags=re.IGNORECASE)`. -/
def removeAllCIGo (needle : List Char) : Nat → List Char → List Char
  | _, [] => []
  | 0, rest => rest
  | fuel + 1, c :: rest =>
    if needle.isPrefixOf ((c :: rest).map Char.toLower) then
      removeAllCIGo needle fuel (rest.drop (needle.length - 1))
    else
      c :: removeAllCIGo needle fuel rest

/-- Case-insensitive removal of all occurrences of a (lowercase) token. -/
def removeAllCI (s needle : String) : String :=
  ⟨removeAllCIGo needle.data s.data.length s.data⟩

/-- Worker for whitespace collapsing: each maximal run of whitespace
becomes a single space (`re.sub(r'\s+', ' ', s)`). `prevSpace` records
whether the previous character was part of a whitespace run. -/
def collapseWsGo : Bool → List Char → List Char
  | _, [] => []
  | prevSpace, c :: rest =>
    if isPySpace c then
      (if prevSpace then [] else [' ']) ++ collapseWsGo true rest
    else
      c :: collapseWsGo false rest

/-- `re.sub(r'\s+', ' ', s)`. -/
def collapseWs (s : String) : String :=
  ⟨collapseWsGo false s.data⟩

/-- `DRY_RUN_FLAGS` from the source, in order. -/
def DRY_RUN_FLAGS : List String := ["--dry-run", "--dry", "-n", "dry run", "dryrun"]

/-- `COMMAND_PREFIXES` from the source. -/
def COMMAND_PREFIXES : List String := ["/pb ", "/picklebot "]

/-- Bot signature constant. -/
def PICKLEBOT_SIGNATURE : String := "SMAD Picklebot"

/-- `extract_dry_run_flag`: scan the lowercased text for the first flag in
`DRY_RUN_FLAGS` occurring as a substring; if found, remove all of its
case-insensitive occurrences from the original text, strip, collapse
whitespace and strip again, returning `(cleaned, true)`; otherwise return
the text unchanged with `false`. -/
def extract_dry_run_flag (command_text : String) : String × Bool :=
  let text_lower := pyLower command_text
  match DRY_RUN_FLAGS.find? (fun flag => strContains text_lower flag) with
  | some flag =>
    let cleaned := pyStrip (removeAllCI command_text flag)
    let cleaned := pyStrip (collapseWs cleaned)
    (cleaned, true)
  | none => (command_text, false)

/-- A classification result: the JSON object
`{"intent": ..., "params": {...}, "confirmation_required": ...}`.
Fields are `Option`s because a dict produced by the LLM-backed path may
lack any of the keys (the caller reads them with `.get` defaults).
Scalar parameter values are modelled by their string rendering. -/
structure IntentData where
  intent : Option String
  params : List (String × String)
  confirmation_required : Option Bool
deriving DecidableEq, Repr

/-- `params.get(k)`: first binding of `k`, if any. -/
def pget (params : List (String × String)) (k : String) : Option String :=
  (params.find? (fun kv => kv.1 == k)).map (fun kv => kv.2)

/-- `parse_intent_fallback`'s preprocessing: lowercase, strip, then remove
the first matching command prefix (and strip again). -/
def fallback_cleaned (command_text : String) : String :=
  let text := pyStrip (pyLower command_text)
  match COMMAND_PREFIXES.find? (fun p => strStarts text (pyLower p)) with
  | some p => pyStrip ⟨text.data.drop p.data.length⟩
  | none => text

/-- `parse_intent_fallback`: deterministic rule-based intent parsing. -/
def parse_intent_fallback (command_text : String) : IntentData :=
  let text := fallback_cleaned command_text
  if text = "help" ∨ text = "?" ∨ text = "commands" then
    ⟨some "help", [], some false⟩
  else if text = "deadbeats" ∨ text = "deadbeat" ∨ text = "owes" ∨ text = "outstanding" then
    ⟨some "show_deadbeats", [], some false⟩
  else if strStarts text "balance" = true then
    let name := pyStrip (removeAllSub text "balance")
    ⟨some "show_balances", if name ≠ "" then [("player_name", name)] else [], some false⟩
  else if strStarts text "book" = true then
    ⟨some "book_court", [("raw", text)], some true⟩
  else if strContains text "poll" = true ∧ strContains text "create" = true then
    ⟨some "create_poll", [], some true⟩
  else if strContains text "reminder" = true then
    ⟨some "send_reminders", [("type", "vote")], some true⟩
  else if text = "status" ∨ text = "health" then
    ⟨some "show_status", [], some false⟩
  else
    ⟨some "unknown", [("raw", text)], some false⟩

/-- Observable outcome of the primary (Claude) classification call.
`exn` covers an exception anywhere in the `try` block: network error,
timeout, unparseable response body, or `json.loads` failing on the
(fence-stripped) content.  `non200` is an HTTP completion with a status
other than 200.  `ok d` is a 200 whose content parsed (after stripping
any surrounding code fences) to the JSON object `d`. -/
inductive ClaudeOutcome where
  | exn
  | non200
  | ok (d : IntentData)
deriving DecidableEq

/-- `parse_intent_with_claude`: use the primary path's parsed result when
the API key is configured and the call succeeded; otherwise fall back to
`parse_intent_fallback`. -/
def parse_intent_with_claude (anthropic_key : Bool) (outcome : ClaudeOutcome)
    (command_text : String) : IntentData :=
  if anthropic_key = false then parse_intent_fallback command_text
  else
    match outcome with
    | .ok d => d
    | .exn => parse_intent_fallback command_text
    | .non200 => parse_intent_fallback command_text

/-- A player row as assembled by `get_player_balances`: combined name and
balance in exact cents (positive = owes money). -/
structure Player where
  name : String
  balance : Int
deriving DecidableEq, Repr

/-- Python `f"{x:.2f}"` for an exact cent amount. -/
def fmtMoney (cents : Int) : String :=
  let a := cents.natAbs
  (if cents < 0 then "-" else "") ++ toString (a / 100) ++ "." ++
    (if a % 100 < 10 then "0" else "") ++ toString (a % 100)

/-- Insert a player into a list already sorted by descending balance,
after all entries with a greater-or-equal balance (stability). -/
def insertDescBalance (p : Player) : List Player → List Player
  | [] => [p]
  | q :: rest => if q.balance ≥ p.balance then q :: insertDescBalance p rest else p :: q :: rest

/-- Python's stable `list.sort(key=balance, reverse=True)`. -/
def sortDescBalance (l : List Player) : List Player :=
  l.foldl (fun acc p => insertDescBalance p acc) []

/-- `handle_deadbeats`: players with positive balance, sorted descending,
with the sum of their balances. -/
def handle_deadbeats (players : List Player) : String :=
  let deadbeats := players.filter (fun p => p.balance > 0)
  if deadbeats.isEmpty then
    "*" ++ PICKLEBOT_SIGNATURE ++ "*\n\nNo outstanding balances! Everyone is paid up."
  else
    let sorted := sortDescBalance deadbeats
    let total := sorted.foldl (fun acc p => acc + p.balance) 0
    "*" ++ PICKLEBOT_SIGNATURE ++ " - Outstanding Balances*\n\n" ++
      sorted.foldl (fun acc p => acc ++ "- " ++ p.name ++ ": $" ++ fmtMoney p.balance ++ "\n") "" ++
      "\n*Total: $" ++ fmtMoney total ++ "*"

/-- `handle_balances`: with a (truthy) name filter, case-insensitive
substring search; otherwise all nonzero balances sorted descending plus
the sum of positive balances. -/
def handle_balances (players : List Player) (player_name : Option String) : String :=
  if (player_name.getD "") ≠ "" then
    let n := player_name.getD ""
    let name_lower := pyLower n
    let found := players.filter (fun p => strContains (pyLower p.name) name_lower)
    match found with
    | [] => "*" ++ PICKLEBOT_SIGNATURE ++ "*\n\nPlayer \x27" ++ n ++ "\x27 not found."
    | [p] =>
      let status := if p.balance > 0 then "owes"
        else if p.balance < 0 then "has credit of" else "is all paid up"
      if p.balance = 0 then
        "*" ++ PICKLEBOT_SIGNATURE ++ "*\n\n" ++ p.name ++ " " ++ status ++ "!"
      else
        "*" ++ PICKLEBOT_SIGNATURE ++ "*\n\n" ++ p.name ++ " " ++ status ++ " $" ++
          fmtMoney (p.balance.natAbs : Int)
    | _ :: _ :: _ =>
      "*" ++ PICKLEBOT_SIGNATURE ++ "*\n\nMultiple matches for \x27" ++ n ++ "\x27:\n" ++
        found.foldl (fun acc p => acc ++ "- " ++ p.name ++ ": $" ++ fmtMoney p.balance ++ "\n") ""
  else
    let sorted := sortDescBalance players
    let total := (sorted.filter (fun p => p.balance > 0)).foldl (fun acc p => acc + p.balance) 0
    "*" ++ PICKLEBOT_SIGNATURE ++ " - All Balances*\n\n" ++
      sorted.foldl
        (fun acc p =>
          if p.balance ≠ 0 then acc ++ "- " ++ p.name ++ ": $" ++ fmtMoney p.balance ++ "\n"
          else acc) "" ++
      "\n*Total Outstanding: $" ++ fmtMoney total ++ "*"

/-- Environment: process configuration (environment variables) plus the
observable outcomes of the read-only collaborators used while processing
one request. -/
structure Env where
  /-- `ADMIN_DINKERS_WHATSAPP_GROUP_ID`. -/
  admin_group_id : String
  /-- Both GREEN-API credentials are configured (nonempty). -/
  greenapi_configured : Bool
  /-- `ANTHROPIC_API_KEY` is configured (nonempty). -/
  anthropic_key : Bool
  /-- `GITHUB_TOKEN` is configured. -/
  github_token : Bool
  /-- `SMAD_SPREADSHEET_ID` is configured. -/
  sheets_configured : Bool
  /-- The formatted current time (`datetime.now(PST).strftime(...)`). -/
  now_str : String
  /-- Outcome of the primary classification call for this request. -/
  claude : ClaudeOutcome
  /-- Result of `get_player_balances()` (`[]` when the spreadsheet
  collaborator fails). -/
  players : List Player
  /-- `some e` models an exception with message `e` raised inside the
  webhook's `try` block that no inner recovery path catches (for example
  the classifier returning a non-dict JSON value, so that a subsequent
  attribute access fails). `none` means no such exception occurs. -/
  raised : Option String
deriving DecidableEq

/-- `handle_help` (the literal help text). -/
def handle_help : String :=
  "*" ++ PICKLEBOT_SIGNATURE ++ " Commands*\n\n*Read-only:*\n/pb help - Show this message\n/pb deadbeats - Show players with outstanding balances\n/pb balance [name] - Show all balances or specific player\n/pb status - Show system status\n\n*Actions (require confirmation):*\n/pb book <date> <time> [duration] - Book court\n  Example: /pb book 2/4 7pm 2hrs both courts\n/pb poll create - Create weekly availability poll\n/pb reminders - Send vote reminders\n\n*Options:*\n--dry-run - Test command without sending messages\n  Example: /pb deadbeats --dry-run\n\nTip: You can use natural language!\n  \"/pb book next Tuesday at 7pm for 2 hours\"\n  \"/pb who owes money?\"\n"

/-- `handle_status`: timestamp plus configuration-derived connectivity flags. -/
def handle_status (env : Env) : String :=
  "*" ++ PICKLEBOT_SIGNATURE ++ " Status*\n\nTime: " ++ env.now_str ++
    "\nWebhook: Online\nGREEN-API: " ++
    (if env.greenapi_configured then "Connected" else "Not configured") ++
    "\nClaude API: " ++ (if env.anthropic_key then "Connected" else "Not configured") ++
    "\nGitHub: " ++ (if env.github_token then "Connected" else "Not configured") ++
    "\nSheets: " ++ (if env.sheets_configured then "Connected" else "Not configured") ++ "\n"

/-- `handle_unknown`. -/
def handle_unknown (raw_text : String) : String :=
  "*" ++ PICKLEBOT_SIGNATURE ++ "*\n\nI didn\x27t understand: \"" ++ raw_text ++
    "\"\n\nType /pb help to see available commands."

/-- `handle_book_court_preview` (numeric JSON parameters are modelled by
their decimal rendering; the default duration 120 renders as "120"). -/
def handle_book_court_preview (params : List (String × String)) : String :=
  let date := (pget params "date").getD "unknown"
  let time := (pget params "time").getD "unknown"
  let duration := (pget params "duration_minutes").getD "120"
  let court := (pget params "court").getD "both"
  "*" ++ PICKLEBOT_SIGNATURE ++ " - Book Court*\n\nThis action requires confirmation.\n\n*Details:*\n- Date: " ++
    date ++ "\n- Time: " ++ time ++ "\n- Duration: " ++ duration ++
    " minutes\n- Court: " ++ court ++ "\n\n_Confirmation links coming in Phase 2_"

/-- `handle_create_poll_preview`. -/
def handle_create_poll_preview : String :=
  "*" ++ PICKLEBOT_SIGNATURE ++ " - Create Poll*\n\nThis action requires confirmation.\n\nWill create a weekly availability poll in the SMAD group.\n\n_Confirmation links coming in Phase 2_"

/-- `handle_send_reminders_preview`. -/
def handle_send_reminders_preview (reminder_type : String) : String :=
  "*" ++ PICKLEBOT_SIGNATURE ++ " - Send Reminders*\n\nThis action requires confirmation.\n\nWill send " ++
    reminder_type ++ " reminders to players who haven\x27t responded.\n\n_Confirmation links coming in Phase 2_"

/-- The dict returned by `process_command`: keys `message`, `dry_run`,
`intent`, and (for action intents only) `needs_confirmation`. -/
structure CmdResult where
  message : String
  dry_run : Bool
  intent : String
  needs_confirmation : Option Bool
deriving DecidableEq

/-- `process_command`: extract the dry-run flag, classify the cleaned
command, and dispatch; read-only intents run their handler directly with
no `needs_confirmation` key, action intents produce a preview with
`needs_confirmation=True`; in dry-run mode the message is prefixed with
`[DRY RUN]`.  (The classifier-reported `confirmation_required` value is
only logged by the source and never used.) -/
def process_command (env : Env) (command_text : String) (dry_run : Bool) : CmdResult :=
  let ex := extract_dry_run_flag command_text
  let cleaned_command := ex.1
  let is_dry_run := dry_run || ex.2
  let intent_data := parse_intent_with_claude env.anthropic_key env.claude cleaned_command
  let intent := intent_data.intent.getD "unknown"
  let params := intent_data.params
  let build := fun (message : String) (intentOut : String) (nc : Option Bool) =>
    CmdResult.mk (if is_dry_run then "[DRY RUN]\n\n" ++ message else message)
      is_dry_run intentOut nc
  if intent = "help" then build handle_help intent none
  else if intent = "show_deadbeats" then build (handle_deadbeats env.players) intent none
  else if intent = "show_balances" then
    build (handle_balances env.players (pget params "player_name")) intent none
  else if intent = "show_status" then build (handle_status env) intent none
  else if intent = "book_court" then
    build (handle_book_court_preview params) intent (some true)
  else if intent = "create_poll" then build handle_create_poll_preview intent (some true)
  else if intent = "send_reminders" then
    build (handle_send_reminders_preview ((pget params "type").getD "vote")) intent (some true)
  else build (handle_unknown ((pget params "raw").getD cleaned_command)) "unknown" none

/-- A network send performed against the GREEN-API messaging endpoint. -/
structure NetSend where
  chat_id : String
  message : String
deriving DecidableEq

/-- An invocation of `send_whatsapp_message` (before it decides whether
to actually hit the network). -/
structure SendCall where
  chat_id : String
  message : String
  dry_run : Bool
deriving DecidableEq

/-- `send_whatsapp_message`: in dry-run mode, log and report success
without any network call; with missing credentials, report failure with
no network call; otherwise perform the POST (recorded in the second
component) and report whether it returned HTTP 200.  `send_ok` is the
messaging collaborator's outcome when a POST is attempted (an exception
or non-200 both yield `False`). -/
def send_whatsapp_message (configured send_ok : Bool) (chat_id message : String)
    (dry_run : Bool) : Bool × Option NetSend :=
  if dry_run then (true, none)
  else if configured = false then (false, none)
  else if send_ok then (true, some ⟨chat_id, message⟩)
  else (false, some ⟨chat_id, message⟩)

/-- HTTP method of the inbound request (`other` stands for every method
other than OPTIONS and POST). -/
inductive Method where
  | options
  | post
  | other
deriving DecidableEq

/-- The decoded JSON body of an inbound request: the fields the webhook
reads, each `Option` marking whether the key is present.  A routed-form
request has `command = some _`; a raw gateway payload uses the
`senderData`/`messageData` fields. -/
structure ReqData where
  dry_run : Bool
  command : Option String
  chatId : Option String
  sender : Option String
  senderName : Option String
  senderData_chatId : Option String
  typeMessage : Option String
  textMessage : Option String
deriving DecidableEq

/-- An inbound HTTP request: method plus decoded JSON body
(`none` = missing or unparseable JSON). -/
structure Request where
  method : Method
  body : Option ReqData
deriving DecidableEq

/-- Body of the webhook's HTTP response. -/
inductive RespBody where
  /-- Empty body (CORS preflight). -/
  | empty
  /-- `{'error': msg}`. -/
  | err (msg : String)
  /-- `{'status': 'ignored', 'reason': reason}`. -/
  | ignored (reason : String)
  /-- `{'status': 'processed', 'intent': ..., 'needs_confirmation': ...,
  'dry_run': ..., 'response_message': ...}`. -/
  | processed (intent : String) (needs_confirmation : Bool) (dry_run : Bool)
      (response_message : Option String)
deriving DecidableEq

/-- Full observable outcome of one webhook invocation: response body and
status code, the invocation of the transport function (if any), and the
network send it performed (if any). -/
structure WebhookResult where
  body : RespBody
  code : Nat
  call : Option SendCall
  net : Option NetSend
deriving DecidableEq

/-- Lines 586-601 of the webhook: process the command, send the response
message to the group (`chat_id or ADMIN_DINKERS_GROUP_ID`, suppressed at
the network level in dry-run mode, returned Bool ignored), and build the
success response; `response_message` is populated only in dry-run mode. -/
def respond_and_send (env : Env) (send_ok : Bool) (command_text chat_id : String)
    (dry_run : Bool) : WebhookResult :=
  let result := process_command env command_text dry_run
  let is_dry := result.dry_run
  let response := RespBody.processed result.intent (result.needs_confirmation.getD false)
    is_dry (if is_dry then some result.message else none)
  if result.message ≠ "" then
    let target := if chat_id ≠ "" then chat_id else env.admin_group_id
    let s := send_whatsapp_message env.greenapi_configured send_ok target result.message is_dry
    ⟨response, 200, some ⟨target, result.message, is_dry⟩, s.2⟩
  else
    ⟨response, 200, none, none⟩

/-- The body of the webhook's `try` block: reject a missing JSON payload,
then either process a routed command unconditionally, or apply the
admin-group / text-message / command-prefix gates to a raw gateway
payload.  An exception modelled by `env.raised` escapes as `.error`. -/
def webhook_try (env : Env) (send_ok : Bool) (body : Option ReqData) :
    Except String WebhookResult :=
  match env.raised with
  | some e => .error e
  | none =>
    match body with
    | none => .ok ⟨.err "No JSON payload", 400, none, none⟩
    | some data =>
      let dry_run := data.dry_run
      match data.command with
      | some command_text =>
        let chat_id := data.chatId.getD env.admin_group_id
        .ok (respond_and_send env send_ok command_text chat_id dry_run)
      | none =>
        let chat_id := data.senderData_chatId.getD ""
        if env.admin_group_id ≠ "" ∧ chat_id ≠ env.admin_group_id then
          .ok ⟨.ignored "not_admin_group", 200, none, none⟩
        else if data.typeMessage.getD "" ≠ "textMessage" then
          .ok ⟨.ignored "not_text_message", 200, none, none⟩
        else
          let text := data.textMessage.getD ""
          if COMMAND_PREFIXES.any (fun p => strStarts (pyLower text) (pyLower p)) = false then
            .ok ⟨.ignored "not_command", 200, none, none⟩
          else
            .ok (respond_and_send env send_ok text chat_id dry_run)

/-- `picklebot_webhook`: CORS preflight, method check, then the `try`
block; any exception escaping the `try` block is returned as a 500 with
`{'error': str(e)}`. -/
def picklebot_webhook (env : Env) (send_ok : Bool) (req : Request) : WebhookResult :=
  match req.method with
  | .options => ⟨.empty, 204, none, none⟩
  | .other => ⟨.err "Method not allowed", 405, none, none⟩
  | .post =>
    match webhook_try env send_ok req.body with
    | .ok r => r
    | .error e => ⟨.err e, 500, none, none⟩

/-- Concrete environment: no Anthropic key (so classification takes the
deterministic fallback), configured transport, empty player snapshot. -/
def fbEnv : Env :=
  { admin_group_id := "admin@g.us", greenapi_configured := true, anthropic_key := false,
    github_token := false, sheets_configured := true, now_str := "01/01/26 10:00 AM PST",
    claude := .non200, players := [], raised := none }

/-- Concrete routed-form request body for the spec's dry-run example. -/
def bookData : ReqData :=
  { dry_run := false, command := some "/pb book 2/4 7pm 2hrs --dry-run",
    chatId := some "chat@g.us", sender := none, senderName := none,
    senderData_chatId := none, typeMessage := none, textMessage := none }

/-- Concrete routed-form request body with no `chatId` key. -/
def routedNoChat : ReqData :=
  { dry_run := false, command := some "/pb help", chatId := none, sender := none,
    senderName := none, senderData_chatId := none, typeMessage := none, textMessage := none }

/-- `fbEnv` with the GREEN-API credentials missing. -/
def fbEnvNoCreds : Env := { fbEnv with greenapi_configured := false }

theorem str_data_append (a b : String) : (a ++ b).data = a.data ++ b.data := by
  cases a; cases b; rfl

theorem str_append_data_ne_nil (a b : String) (h : a.data ≠ []) : (a ++ b).data ≠ [] := by
  rw [str_data_append]
  intro he
  exact h (List.append_eq_nil.mp he).1

theorem str_append_ne_empty (a b : String) (h : a.data ≠ []) : a ++ b ≠ "" := by
  intro he
  exact str_append_data_ne_nil a b h (congrArg String.data he)

theorem handle_help_ne : handle_help ≠ "" :=
  str_append_ne_empty _ _ (by decide)


theorem handle_deadbeats_ne (players : List Player) : handle_deadbeats players ≠ "" := by
  unfold handle_deadbeats
  dsimp only []
  split <;>
  · refine str_append_ne_empty _ _ ?_
    repeat first
    | exact (by decide)
    | apply str_append_data_ne_nil

theorem handle_balances_ne (players : List Player) (n : Option String) :
    handle_balances players n ≠ "" := by
  unfold handle_balances
  dsimp only []
  split
  · split <;> try split
    all_goals
      refine str_append_ne_empty _ _ ?_
      repeat first
      | exact (by decide)
      | apply str_append_data_ne_nil
  · refine str_append_ne_empty _ _ ?_
    repeat first
    | exact (by decide)
    | apply str_append_data_ne_nil

theorem handle_status_ne (env : Env) : handle_status env ≠ "" := by
  unfold handle_status
  refine str_append_ne_empty _ _ ?_
  repeat first
  | exact (by decide)
  | apply str_append_data_ne_nil

theorem handle_unknown_ne (raw : String) : handle_unknown raw ≠ "" := by
  unfold handle_unknown
  refine str_append_ne_empty _ _ ?_
  repeat first
  | exact (by decide)
  | apply str_append_data_ne_nil

theorem handle_book_court_preview_ne (params : List (String × String)) :
    handle_book_court_preview params ≠ "" := by
  unfold handle_book_court_preview
  dsimp only []
  refine str_append_ne_empty _ _ ?_
  repeat first
  | exact (by decide)
  | apply str_append_data_ne_nil

theorem handle_create_poll_preview_ne : handle_create_poll_preview ≠ "" :=
  str_append_ne_empty _ _ (by decide)

theorem handle_send_reminders_preview_ne (rt : String) :
    handle_send_reminders_preview rt ≠ "" := by
  unfold handle_send_reminders_preview
  refine str_append_ne_empty _ _ ?_
  repeat first
  | exact (by decide)
  | apply str_append_data_ne_nil

theorem process_command_dry_run_eq (env : Env) (t : String) (d : Bool) :
    (process_command env t d).dry_run = (d || (extract_dry_run_flag t).2) := by
  unfold process_command
  dsimp only []
  split_ifs <;> rfl

theorem dry_prefix_ne (m : String) : "[DRY RUN]\n\n" ++ m ≠ "" :=
  str_append_ne_empty _ _ (by decide)

theorem process_command_message_ne (env : Env) (t : String) (d : Bool) :
    (process_command env t d).message ≠ "" := by
  unfold process_command
  dsimp only []
  split_ifs
  · exact dry_prefix_ne _
  · exact handle_help_ne
  · exact dry_prefix_ne _
  · exact handle_deadbeats_ne _
  · exact dry_prefix_ne _
  · exact handle_balances_ne _ _
  · exact dry_prefix_ne _
  · exact handle_status_ne _
  · exact dry_prefix_ne _
  · exact handle_book_court_preview_ne _
  · exact dry_prefix_ne _
  · exact handle_create_poll_preview_ne
  · exact dry_prefix_ne _
  · exact handle_send_reminders_preview_ne _
  · exact dry_prefix_ne _
  · exact handle_unknown_ne _

theorem process_command_dry_message (env : Env) (t : String) (d : Bool)
    (h : (d || (extract_dry_run_flag t).2) = true) :
    ∃ m, (process_command env t d).message = "[DRY RUN]\n\n" ++ m := by
  unfold process_command
  dsimp only []
  split_ifs <;> exact ⟨_, rfl⟩

theorem respond_and_send_eq (env : Env) (send_ok : Bool) (t cid : String) (d : Bool) :
    respond_and_send env send_ok t cid d =
      ⟨.processed (process_command env t d).intent
          ((process_command env t d).needs_confirmation.getD false)
          (process_command env t d).dry_run
          (if (process_command env t d).dry_run then some (process_command env t d).message
           else none),
        200,
        some ⟨if cid ≠ "" then cid else env.admin_group_id, (process_command env t d).message,
          (process_command env t d).dry_run⟩,
        if (process_command env t d).dry_run then none
        else if env.greenapi_configured = false then none
        else some ⟨if cid ≠ "" then cid else env.admin_group_id,
          (process_command env t d).message⟩⟩ := by
  unfold respond_and_send send_whatsapp_message
  dsimp only []
  rw [if_pos (process_command_message_ne env t d)]
  split_ifs <;> rfl

theorem webhook_routed (env : Env) (send_ok : Bool) (data : ReqData) (t : String)
    (hr : env.raised = none) (hc : data.command = some t) :
    picklebot_webhook env send_ok ⟨.post, some data⟩ =
      respond_and_send env send_ok t (data.chatId.getD env.admin_group_id) data.dry_run := by
  unfold picklebot_webhook webhook_try
  rw [hr]
  dsimp only []
  rw [hc]

theorem extract_of_no_flag (t : String)
    (h : ∀ f ∈ DRY_RUN_FLAGS, strContains (pyLower t) f = false) :
    extract_dry_run_flag t = (t, false) := by
  unfold extract_dry_run_flag
  dsimp only []
  rw [List.find?_eq_none.mpr (fun x hx => by simp [h x hx])]

/-- The intent the pipeline classifies a command to: the classifier's
`intent` field (defaulting to "unknown") on the dry-run-cleaned text. -/
def classified_intent (env : Env) (command_text : String) : String :=
  (parse_intent_with_claude env.anthropic_key env.claude
      (extract_dry_run_flag command_text).1).intent.getD "unknown"

/-- C3: classification is total and never raises: it is a Lean function
into `IntentData`, and on every failure of the primary path (missing API
key, exception during the request or while parsing its body, or a
non-200 status) it returns exactly the deterministic fallback result for
the same text. -/
theorem C3_classify_total_and_degrades (anthropic_key : Bool) (outcome : ClaudeOutcome)
    (t : String)
    (h : anthropic_key = false ∨ outcome = .exn ∨ outcome = .non200) :
    parse_intent_with_claude anthropic_key outcome t = parse_intent_fallback t := by
  rcases h with h | h | h
  · subst h
    rfl
  · subst h
    cases anthropic_key <;> rfl
  · subst h
    cases anthropic_key <;> rfl

/-- Witness for C3 at a concrete failure (request exception, key set). -/
theorem C3_classify_total_and_degrades_witness :
    parse_intent_with_claude true .exn "/pb deadbeats" = parse_intent_fallback "/pb deadbeats" :=
  C3_classify_total_and_degrades true .exn "/pb deadbeats" (Or.inr (Or.inl rfl))

/-- The spec's example player snapshot: Alice owes $25.00, Bob has a
$5.00 credit, Cara is settled. -/
def snapshotPlayers : List Player := [⟨"Alice", 2500⟩, ⟨"Bob", -500⟩, ⟨"Cara", 0⟩]

/-- C8: on the snapshot [Alice $25.00, Bob -$5.00, Cara $0.00],
`show_deadbeats` lists only Alice with total $25.00; `show_balances`
with no filter lists Alice and Bob (not Cara) sorted descending with
total $25.00 (positive balances only); and with filter "ali" it matches
"Alice" case-insensitively and renders "Alice owes $25.00". -/
theorem C8_balance_rendering :
    handle_deadbeats snapshotPlayers =
      "*SMAD Picklebot - Outstanding Balances*\n\n- Alice: $25.00\n\n*Total: $25.00*" ∧
    handle_balances snapshotPlayers none =
      "*SMAD Picklebot - All Balances*\n\n- Alice: $25.00\n- Bob: $-5.00\n\n*Total Outstanding: $25.00*" ∧
    handle_balances snapshotPlayers (some "ali") =
      "*SMAD Picklebot*\n\nAlice owes $25.00" := by
  refine ⟨by decide, by decide, by decide⟩

/-- C6 (amended): normalization is idempotent only on inputs whose
normalized output contains no recognized dry-run token: for those, a
second application of `extract_dry_run_flag` returns the text unchanged
with `textDryRun = false`.  (In general, removing one token can leave or
expose another recognized token, so a second application can change the
text and report `true`; see the counterexample.) -/
theorem C6_normalizer_idempotent_amended (t : String)
    (h : ∀ f ∈ DRY_RUN_FLAGS, strContains (pyLower (extract_dry_run_flag t).1) f = false) :
    extract_dry_run_flag (extract_dry_run_flag t).1 = ((extract_dry_run_flag t).1, false) :=
  extract_of_no_flag _ h

/-- Witness for the amended C6 at a flagless input. -/
theorem C6_normalizer_idempotent_amended_witness :
    extract_dry_run_flag (extract_dry_run_flag "/pb help").1 =
      ((extract_dry_run_flag "/pb help").1, false) :=
  C6_normalizer_idempotent_amended "/pb help" (by decide)

/-- C6 counterexample: "dry dryrun run" normalizes (removing `dryrun`)
to "dry run", which still contains the recognized token "dry run"; a
second application therefore changes the text to "" and reports
`textDryRun = true`, refuting idempotence. -/
theorem C6_normalizer_not_idempotent_cex :
    extract_dry_run_flag "dry dryrun run" = ("dry run", true) ∧
    extract_dry_run_flag (extract_dry_run_flag "dry dryrun run").1 = ("", true) := by
  refine ⟨by decide, by decide⟩

/-- C7 (amended): any exception escaping the webhook's `try` block is
caught at the top level and surfaced as a 500 whose body is
`{'error': str(e)}` — it echoes the exception's own message rather than
a fixed generic message. -/
theorem C7_top_level_500_amended (env : Env) (send_ok : Bool) (req : Request) (e : String)
    (hm : req.method = .post) (hr : env.raised = some e) :
    picklebot_webhook env send_ok req = ⟨.err e, 500, none, none⟩ := by
  obtain ⟨m, b⟩ := req
  cases hm
  unfold picklebot_webhook webhook_try
  rw [hr]

/-- Witness for the amended C7 at a concrete exception. -/
theorem C7_top_level_500_amended_witness :
    picklebot_webhook { fbEnv with raised := some "boom" } true ⟨.post, some bookData⟩ =
      ⟨.err "boom", 500, none, none⟩ :=
  C7_top_level_500_amended _ true _ "boom" rfl rfl

/-- C7 counterexample: two different internal exceptions produce two
different 500 bodies, each carrying the exception's own message — so the
body is not a generic message free of internal details. -/
theorem C7_error_body_leaks_cex :
    (picklebot_webhook { fbEnv with raised := some "KeyError: internal secret" } true
        ⟨.post, some bookData⟩).body = .err "KeyError: internal secret" ∧
    (picklebot_webhook { fbEnv with raised := some "ValueError: boom" } true
        ⟨.post, some bookData⟩).body = .err "ValueError: boom" ∧
    RespBody.err "KeyError: internal secret" ≠ RespBody.err "ValueError: boom" := by
  refine ⟨rfl, rfl, by decide⟩

/-- C1: the `needs_confirmation` flag of the dispatch result (the
webhook reads it with default `False`) is a function of the classified
intent alone: `True` exactly for book_court / create_poll /
send_reminders, `False` for every other known intent — whatever
`confirmation_required` value the classifier (primary or fallback)
reported, over every environment (hence every LLM-reported dict). -/
theorem C1_confirmation_from_intent (env : Env) (t : String) (dry : Bool) :
    ((classified_intent env t = "book_court" ∨ classified_intent env t = "create_poll" ∨
        classified_intent env t = "send_reminders") →
      (process_command env t dry).needs_confirmation.getD false = true) ∧
    ((classified_intent env t = "help" ∨ classified_intent env t = "show_deadbeats" ∨
        classified_intent env t = "show_balances" ∨ classified_intent env t = "show_status" ∨
        classified_intent env t = "unknown") →
      (process_command env t dry).needs_confirmation.getD false = false) := by
  unfold classified_intent
  constructor
  · rintro (h | h | h) <;>
    · unfold process_command
      dsimp only []
      rw [h]
      simp
  · rintro (h | h | h | h | h) <;>
    · unfold process_command
      dsimp only []
      rw [h]
      simp

/-- Environment where the LLM-backed path reports intent book_court
with `confirmation_required=False`. -/
def llmBookEnv : Env :=
  { fbEnv with anthropic_key := true, claude := .ok ⟨some "book_court", [], some false⟩ }

/-- Environment where the LLM-backed path reports intent help with
`confirmation_required=True`. -/
def llmHelpEnv : Env :=
  { fbEnv with anthropic_key := true, claude := .ok ⟨some "help", [], some true⟩ }

/-- Witness for C1: a book command (classifier reporting
`confirmation_required=False`) still gets `True`; a help command
(classifier reporting `True`) still gets `False`. -/
theorem C1_confirmation_from_intent_witness :
    (process_command llmBookEnv "/pb book 2/4 7pm" false).needs_confirmation.getD false = true ∧
    (process_command llmHelpEnv "/pb help" false).needs_confirmation.getD false = false :=
  ⟨(C1_confirmation_from_intent llmBookEnv "/pb book 2/4 7pm" false).1 (Or.inl (by decide)),
   (C1_confirmation_from_intent llmHelpEnv "/pb help" false).2 (Or.inl (by decide))⟩

/-- C4: the fallback classifier applies its eight rules in order to the
lowercased, prefix-stripped text (`fallback_cleaned`): exact help
keywords; exact deadbeats keywords; "balance" prefix with the player
name being the text minus every "balance" substring, trimmed (empty =
no filter); "book" prefix with `raw` = cleaned text; "poll" and
"create" both contained; "reminder" contained (type "vote"); exact
status keywords; otherwise unknown with `raw` = cleaned text. -/
theorem C4_fallback_rules (t : String) :
    ((fallback_cleaned t = "help" ∨ fallback_cleaned t = "?" ∨ fallback_cleaned t = "commands") →
      parse_intent_fallback t = ⟨some "help", [], some false⟩) ∧
    (¬(fallback_cleaned t = "help" ∨ fallback_cleaned t = "?" ∨ fallback_cleaned t = "commands") →
      (fallback_cleaned t = "deadbeats" ∨ fallback_cleaned t = "deadbeat" ∨
        fallback_cleaned t = "owes" ∨ fallback_cleaned t = "outstanding") →
      parse_intent_fallback t = ⟨some "show_deadbeats", [], some false⟩) ∧
    (¬(fallback_cleaned t = "help" ∨ fallback_cleaned t = "?" ∨ fallback_cleaned t = "commands") →
      ¬(fallback_cleaned t = "deadbeats" ∨ fallback_cleaned t = "deadbeat" ∨
        fallback_cleaned t = "owes" ∨ fallback_cleaned t = "outstanding") →
      strStarts (fallback_cleaned t) "balance" = true →
      parse_intent_fallback t =
        ⟨some "show_balances",
          if pyStrip (removeAllSub (fallback_cleaned t) "balance") ≠ "" then
            [("player_name", pyStrip (removeAllSub (fallback_cleaned t) "balance"))]
          else [],
          some false⟩) ∧
    (¬(fallback_cleaned t = "help" ∨ fallback_cleaned t = "?" ∨ fallback_cleaned t = "commands") →
      ¬(fallback_cleaned t = "deadbeats" ∨ fallback_cleaned t = "deadbeat" ∨
        fallback_cleaned t = "owes" ∨ fallback_cleaned t = "outstanding") →
      ¬strStarts (fallback_cleaned t) "balance" = true →
      strStarts (fallback_cleaned t) "book" = true →
      parse_intent_fallback t =
        ⟨some "book_court", [("raw", fallback_cleaned t)], some true⟩) ∧
    (¬(fallback_cleaned t = "help" ∨ fallback_cleaned t = "?" ∨ fallback_cleaned t = "commands") →
      ¬(fallback_cleaned t = "deadbeats" ∨ fallback_cleaned t = "deadbeat" ∨
        fallback_cleaned t = "owes" ∨ fallback_cleaned t = "outstanding") →
      ¬strStarts (fallback_cleaned t) "balance" = true →
      ¬strStarts (fallback_cleaned t) "book" = true →
      (strContains (fallback_cleaned t) "poll" = true ∧
        strContains (fallback_cleaned t) "create" = true) →
      parse_intent_fallback t = ⟨some "create_poll", [], some true⟩) ∧
    (¬(fallback_cleaned t = "help" ∨ fallback_cleaned t = "?" ∨ fallback_cleaned t = "commands") →
      ¬(fallback_cleaned t = "deadbeats" ∨ fallback_cleaned t = "deadbeat" ∨
        fallback_cleaned t = "owes" ∨ fallback_cleaned t = "outstanding") →
      ¬strStarts (fallback_cleaned t) "balance" = true →
      ¬strStarts (fallback_cleaned t) "book" = true →
      ¬(strContains (fallback_cleaned t) "poll" = true ∧
        strContains (fallback_cleaned t) "create" = true) →
      strContains (fallback_cleaned t) "reminder" = true →
      parse_intent_fallback t = ⟨some "send_reminders", [("type", "vote")], some true⟩) ∧
    (¬(fallback_cleaned t = "help" ∨ fallback_cleaned t = "?" ∨ fallback_cleaned t = "commands") →
      ¬(fallback_cleaned t = "deadbeats" ∨ fallback_cleaned t = "deadbeat" ∨
        fallback_cleaned t = "owes" ∨ fallback_cleaned t = "outstanding") →
      ¬strStarts (fallback_cleaned t) "balance" = true →
      ¬strStarts (fallback_cleaned t) "book" = true →
      ¬(strContains (fallback_cleaned t) "poll" = true ∧
        strContains (fallback_cleaned t) "create" = true) →
      ¬strContains (fallback_cleaned t) "reminder" = true →
      (fallback_cleaned t = "status" ∨ fallback_cleaned t = "health") →
      parse_intent_fallback t = ⟨some "show_status", [], some false⟩) ∧
    (¬(fallback_cleaned t = "help" ∨ fallback_cleaned t = "?" ∨ fallback_cleaned t = "commands") →
      ¬(fallback_cleaned t = "deadbeats" ∨ fallback_cleaned t = "deadbeat" ∨
        fallback_cleaned t = "owes" ∨ fallback_cleaned t = "outstanding") →
      ¬strStarts (fallback_cleaned t) "balance" = true →
      ¬strStarts (fallback_cleaned t) "book" = true →
      ¬(strContains (fallback_cleaned t) "poll" = true ∧
        strContains (fallback_cleaned t) "create" = true) →
      ¬strContains (fallback_cleaned t) "reminder" = true →
      ¬(fallback_cleaned t = "status" ∨ fallback_cleaned t = "health") →
      parse_intent_fallback t = ⟨some "unknown", [("raw", fallback_cleaned t)], some false⟩) := by
  refine ⟨?_, ?_, ?_, ?_, ?_, ?_, ?_, ?_⟩
  · intro h1
    unfold parse_intent_fallback
    dsimp only []
    rw [if_pos h1]
  · intro h1 h2
    unfold parse_intent_fallback
    dsimp only []
    rw [if_neg h1, if_pos h2]
  · intro h1 h2 h3
    unfold parse_intent_fallback
    dsimp only []
    rw [if_neg h1, if_neg h2, if_pos h3]
  · intro h1 h2 h3 h4
    unfold parse_intent_fallback
    dsimp only []
    rw [if_neg h1, if_neg h2, if_neg h3, if_pos h4]
  · intro h1 h2 h3 h4 h5
    unfold parse_intent_fallback
    dsimp only []
    rw [if_neg h1, if_neg h2, if_neg h3, if_neg h4, if_pos h5]
  · intro h1 h2 h3 h4 h5 h6
    unfold parse_intent_fallback
    dsimp only []
    rw [if_neg h1, if_neg h2, if_neg h3, if_neg h4, if_neg h5, if_pos h6]
  · intro h1 h2 h3 h4 h5 h6 h7
    unfold parse_intent_fallback
    dsimp only []
    rw [if_neg h1, if_neg h2, if_neg h3, if_neg h4, if_neg h5, if_neg h6, if_pos h7]
  · intro h1 h2 h3 h4 h5 h6 h7
    unfold parse_intent_fallback
    dsimp only []
    rw [if_neg h1, if_neg h2, if_neg h3, if_neg h4, if_neg h5, if_neg h6, if_neg h7]

/-- Witness for C4: rule 3 on "/pb balance John" (player_name "john")
and rule 8 on "/pb frobnicate". -/
theorem C4_fallback_rules_witness :
    parse_intent_fallback "/pb balance John" =
      ⟨some "show_balances", [("player_name", "john")], some false⟩ ∧
    parse_intent_fallback "/pb frobnicate" =
      ⟨some "unknown", [("raw", "frobnicate")], some false⟩ :=
  ⟨(C4_fallback_rules "/pb balance John").2.2.1 (by decide) (by decide) (by decide),
   (C4_fallback_rules "/pb frobnicate").2.2.2.2.2.2.2 (by decide) (by decide) (by decide)
     (by decide) (by decide) (by decide) (by decide)⟩

/-- C5: for a text containing a recognized dry-run token, the normalizer
removes all case-insensitive occurrences of the first matching token of
the ordered list `DRY_RUN_FLAGS` (matching on the lowercased text),
collapses and trims whitespace, and reports `textDryRun = true`; for a
text containing none of the tokens it returns the text unchanged with
`textDryRun = false`. -/
theorem C5_normalizer_flags (t : String) :
    (strContains (pyLower t) "--dry-run" = true →
      extract_dry_run_flag t =
        (pyStrip (collapseWs (pyStrip (removeAllCI t "--dry-run"))), true)) ∧
    (strContains (pyLower t) "--dry-run" = false → strContains (pyLower t) "--dry" = true →
      extract_dry_run_flag t =
        (pyStrip (collapseWs (pyStrip (removeAllCI t "--dry"))), true)) ∧
    (strContains (pyLower t) "--dry-run" = false → strContains (pyLower t) "--dry" = false →
      strContains (pyLower t) "-n" = true →
      extract_dry_run_flag t =
        (pyStrip (collapseWs (pyStrip (removeAllCI t "-n"))), true)) ∧
    (strContains (pyLower t) "--dry-run" = false → strContains (pyLower t) "--dry" = false →
      strContains (pyLower t) "-n" = false → strContains (pyLower t) "dry run" = true →
      extract_dry_run_flag t =
        (pyStrip (collapseWs (pyStrip (removeAllCI t "dry run"))), true)) ∧
    (strContains (pyLower t) "--dry-run" = false → strContains (pyLower t) "--dry" = false →
      strContains (pyLower t) "-n" = false → strContains (pyLower t) "dry run" = false →
      strContains (pyLower t) "dryrun" = true →
      extract_dry_run_flag t =
        (pyStrip (collapseWs (pyStrip (removeAllCI t "dryrun"))), true)) ∧
    ((∀ f ∈ DRY_RUN_FLAGS, strContains (pyLower t) f = false) →
      extract_dry_run_flag t = (t, false)) := by
  refine ⟨?_, ?_, ?_, ?_, ?_, ?_⟩
  · intro h1
    unfold extract_dry_run_flag
    dsimp only [DRY_RUN_FLAGS]
    rw [List.find?_cons_of_pos _ (by simpa using h1)]
  · intro h1 h2
    unfold extract_dry_run_flag
    dsimp only [DRY_RUN_FLAGS]
    rw [List.find?_cons_of_neg _ (by simpa using h1),
      List.find?_cons_of_pos _ (by simpa using h2)]
  · intro h1 h2 h3
    unfold extract_dry_run_flag
    dsimp only [DRY_RUN_FLAGS]
    rw [List.find?_cons_of_neg _ (by simpa using h1),
      List.find?_cons_of_neg _ (by simpa using h2),
      List.find?_cons_of_pos _ (by simpa using h3)]
  · intro h1 h2 h3 h4
    unfold extract_dry_run_flag
    dsimp only [DRY_RUN_FLAGS]
    rw [List.find?_cons_of_neg _ (by simpa using h1),
      List.find?_cons_of_neg _ (by simpa using h2),
      List.find?_cons_of_neg _ (by simpa using h3),
      List.find?_cons_of_pos _ (by simpa using h4)]
  · intro h1 h2 h3 h4 h5
    unfold extract_dry_run_flag
    dsimp only [DRY_RUN_FLAGS]
    rw [List.find?_cons_of_neg _ (by simpa using h1),
      List.find?_cons_of_neg _ (by simpa using h2),
      List.find?_cons_of_neg _ (by simpa using h3),
      List.find?_cons_of_neg _ (by simpa using h4),
      List.find?_cons_of_pos _ (by simpa using h5)]
  · exact extract_of_no_flag t

/-- Witness for C5: the "--dry-run" rule on a concrete command and the
no-flag rule on a flagless command. -/
theorem C5_normalizer_flags_witness :
    extract_dry_run_flag "/pb status --dry-run" = ("/pb status", true) ∧
    extract_dry_run_flag "/pb status" = ("/pb status", false) :=
  ⟨(C5_normalizer_flags "/pb status --dry-run").1 (by decide),
   (C5_normalizer_flags "/pb status").2.2.2.2.2 (by decide)⟩

/-- C2: the effective dry-run flag equals external override OR
text-derived flag; when true the message is computed and prefixed with
"[DRY RUN]", no network send is performed, and `response_message`
carries the message; when false `response_message` is null and, with
credentials configured, the network send proceeds.  In particular
"/pb book 2/4 7pm 2hrs --dry-run" (fallback classification) yields
intent book_court, needs_confirmation true, dry-run true and no send. -/
theorem C2_dry_run_semantics (env : Env) (send_ok : Bool) (data : ReqData) (t : String)
    (hr : env.raised = none) (hc : data.command = some t) :
    (∃ i nc rm, (picklebot_webhook env send_ok ⟨.post, some data⟩).body =
        .processed i nc (data.dry_run || (extract_dry_run_flag t).2) rm) ∧
    ((data.dry_run || (extract_dry_run_flag t).2) = true →
      (picklebot_webhook env send_ok ⟨.post, some data⟩).net = none ∧
      ∃ i nc m, (picklebot_webhook env send_ok ⟨.post, some data⟩).body =
          .processed i nc true (some ("[DRY RUN]\n\n" ++ m))) ∧
    ((data.dry_run || (extract_dry_run_flag t).2) = false →
      (∃ i nc, (picklebot_webhook env send_ok ⟨.post, some data⟩).body =
          .processed i nc false none) ∧
      (env.greenapi_configured = true →
        (picklebot_webhook env send_ok ⟨.post, some data⟩).net ≠ none)) ∧
    (∃ m, picklebot_webhook fbEnv true ⟨.post, some bookData⟩ =
        ⟨.processed "book_court" true true (some m), 200, some ⟨"chat@g.us", m, true⟩, none⟩) := by
  rw [webhook_routed env send_ok data t hr hc, respond_and_send_eq]
  have hd := process_command_dry_run_eq env t data.dry_run
  refine ⟨⟨_, _, _, by rw [hd]⟩, ?_, ?_, ⟨_, rfl⟩⟩
  · intro h
    rw [hd, h]
    constructor
    · rfl
    · obtain ⟨m, hm⟩ := process_command_dry_message env t data.dry_run h
      exact ⟨_, _, m, by rw [hm]; rfl⟩
  · intro h
    rw [hd, h]
    constructor
    · exact ⟨_, _, rfl⟩
    · intro hcred
      rw [hcred]
      dsimp only []
      simp

/-- Witness for C2 on the spec's concrete dry-run booking command. -/
theorem C2_dry_run_semantics_witness :
    (picklebot_webhook fbEnv true ⟨.post, some bookData⟩).net = none :=
  ((C2_dry_run_semantics fbEnv true bookData "/pb book 2/4 7pm 2hrs --dry-run" rfl rfl).2.1
    (by decide)).1

/-- C9: a routed-form request (JSON body with a "command" key) is
processed unconditionally — no admin-group, message-type, or
command-prefix gate applies, for every chatId/sender/text — returning
200 with a "processed" body; and when the chatId key is absent the
response message is addressed to the configured admin group. -/
theorem C9_routed_unconditional (env : Env) (send_ok : Bool) (data : ReqData) (t : String)
    (hr : env.raised = none) (hc : data.command = some t) :
    (picklebot_webhook env send_ok ⟨.post, some data⟩).code = 200 ∧
    (∃ i nc dr rm, (picklebot_webhook env send_ok ⟨.post, some data⟩).body =
        .processed i nc dr rm) ∧
    (data.chatId = none →
      ∃ m dr, (picklebot_webhook env send_ok ⟨.post, some data⟩).call =
        some ⟨env.admin_group_id, m, dr⟩) := by
  rw [webhook_routed env send_ok data t hr hc, respond_and_send_eq]
  refine ⟨rfl, ⟨_, _, _, _, rfl⟩, ?_⟩
  · intro h
    rw [h]
    have hta : (if Option.getD none env.admin_group_id ≠ "" then
        Option.getD none env.admin_group_id else env.admin_group_id) = env.admin_group_id := by
      simp
    rw [hta]
    exact ⟨_, _, rfl⟩

/-- Witness for C9: a routed request with no chatId, no prefix gate. -/
theorem C9_routed_unconditional_witness :
    (picklebot_webhook fbEnv true ⟨.post, some routedNoChat⟩).code = 200 ∧
    ∃ m dr, (picklebot_webhook fbEnv true ⟨.post, some routedNoChat⟩).call =
      some ⟨fbEnv.admin_group_id, m, dr⟩ :=
  ⟨(C9_routed_unconditional fbEnv true routedNoChat "/pb help" rfl rfl).1,
   (C9_routed_unconditional fbEnv true routedNoChat "/pb help" rfl rfl).2.2 rfl⟩

theorem respond_and_send_transport_indep (env : Env) (o₁ o₂ : Bool) (t cid : String) (d : Bool) :
    respond_and_send env o₁ t cid d = respond_and_send env o₂ t cid d := by
  rw [respond_and_send_eq, respond_and_send_eq]

/-- C10: outbound-delivery failure never affects the HTTP result: the
transport function returns a Bool the webhook ignores, so the entire
webhook result is independent of the messaging collaborator's outcome;
and a routed command still returns 200/"processed" when the transport
credentials are missing. -/
theorem C10_delivery_isolated (env : Env) (send_ok₁ send_ok₂ : Bool) (req : Request) :
    picklebot_webhook env send_ok₁ req = picklebot_webhook env send_ok₂ req ∧
    (∀ data t, env.raised = none → env.greenapi_configured = false →
      req = ⟨.post, some data⟩ → data.command = some t →
      (picklebot_webhook env send_ok₁ req).code = 200 ∧
      ∃ i nc dr rm, (picklebot_webhook env send_ok₁ req).body = .processed i nc dr rm) := by
  constructor
  · obtain ⟨m, b⟩ := req
    cases m with
    | options => rfl
    | other => rfl
    | post =>
      unfold picklebot_webhook webhook_try
      cases hrz : env.raised
      · dsimp only []
        cases b with
        | none => rfl
        | some data =>
          dsimp only []
          cases hcz : data.command with
          | some ct =>
            dsimp only []
            rw [respond_and_send_transport_indep env send_ok₁ send_ok₂]
          | none =>
            dsimp only []
            split_ifs <;>
              first
              | rfl
              | rw [respond_and_send_transport_indep env send_ok₁ send_ok₂]
      · rfl
  · intro data t hrz hcred hreq hcz
    subst hreq
    rw [webhook_routed env send_ok₁ data t hrz hcz, respond_and_send_eq]
    exact ⟨rfl, _, _, _, _, rfl⟩

/-- Witness for C10: with missing credentials, the result is the same
for a succeeding and a failing transport, and is 200/"processed". -/
theorem C10_delivery_isolated_witness :
    picklebot_webhook fbEnvNoCreds true ⟨.post, some routedNoChat⟩ =
      picklebot_webhook fbEnvNoCreds false ⟨.post, some routedNoChat⟩ ∧
    (picklebot_webhook fbEnvNoCreds true ⟨.post, some routedNoChat⟩).code = 200 :=
  ⟨(C10_delivery_isolated fbEnvNoCreds true false ⟨.post, some routedNoChat⟩).1,
   ((C10_delivery_isolated fbEnvNoCreds true false ⟨.post, some routedNoChat⟩).2
      routedNoChat "/pb help" rfl rfl rfl rfl).1⟩
